import Mathlib

/-!
# Verification of the hackernews-scraper fetch-parse-persist pipeline

Shallow embedding of the repository's core pipeline:

* `hackernews_scraper/models/story.py` — the `Story` dataclass (validation,
  defaulting, derived `domain`, dict round trip);
* `hackernews_scraper/core/storage.py` — `FileStorage.save_stories` / `load_stories`;
* `hackernews-scraper/core/scraper.py` — the sequential `HackerNewsScraper`
  (robots.txt load, rate limiting, retries, per-item parsing, page loop);
* `hackernews_scraper/core/async_scraper.py` — the concurrent
  `AsyncHackerNewsScraper` (same parsing, per-page failure recovery).

Machine-level conventions: Python `int` is `Int`; Python `str` is `String`;
values that may be `None` in Python are `Option _`; a Python function that can
raise is `Except String _` / `Option _`.  Standard-library collaborators
(`datetime.isoformat`/`fromisoformat`, `urllib.parse.urlparse`, `str.split`,
`int(...)`) are re-implemented here following their documented behaviour.
-/

deriving instance DecidableEq for Except

namespace HN

/-! ## Python string helpers -/

/-- Empty-string test on the underlying character list (Python `not s` for a
string `s`). -/
def pyEmpty (s : String) : Bool :=
  s.data.isEmpty

/-- Python truthiness test `not x` for an optional string: `None` and `""` are
falsy.  Used by `Story.__post_init__` (`if not self.url`, `if not self.story_id`). -/
def pyFalsy : Option String → Bool
  | none => true
  | some s => pyEmpty s

/-- Python `s.strip()`: drop whitespace from both ends. -/
def pyStrip (s : String) : String :=
  ⟨((s.data.dropWhile Char.isWhitespace).reverse.dropWhile Char.isWhitespace).reverse⟩

/-- Python `s.lower()` (ASCII part, which is all the parser compares). -/
def pyLower (s : String) : String :=
  ⟨s.data.map Char.toLower⟩

/-- Digit-string to `Nat`: `some` iff the list is non-empty and all decimal digits. -/
def parseNatDigits (l : List Char) : Option Nat :=
  if !l.isEmpty && l.all Char.isDigit then
    some (l.foldl (fun a c => a * 10 + (c.toNat - 48)) 0)
  else none

/-- Python `int(s)` on a string: optional surrounding whitespace, optional
sign, decimal digits; anything else raises `ValueError` (here: `none`). -/
def pyInt (s : String) : Option Int :=
  match (pyStrip s).data with
  | '-' :: ds => (parseNatDigits ds).map (fun n => -(n : Int))
  | '+' :: ds => (parseNatDigits ds).map (fun n => (n : Int))
  | ds => (parseNatDigits ds).map (fun n => (n : Int))

/-- Accumulator pass for `pySplit`: gather maximal runs of non-whitespace. -/
def splitWsAux : List Char → List Char → List String
  | [], acc => if acc.isEmpty then [] else [⟨acc.reverse⟩]
  | c :: cs, acc =>
    if c.isWhitespace then
      if acc.isEmpty then splitWsAux cs []
      else ⟨acc.reverse⟩ :: splitWsAux cs []
    else splitWsAux cs (c :: acc)

/-- Python `s.split()` with no separator: split on runs of whitespace,
discarding empty pieces. -/
def pySplit (s : String) : List String :=
  splitWsAux s.data []

/-- Is `pre` a prefix of `l`? -/
def listPrefixOf : List Char → List Char → Bool
  | [], _ => true
  | _ :: _, [] => false
  | a :: as, b :: bs => a = b && listPrefixOf as bs

/-- Does `sub` occur as a contiguous run in `l`? -/
def containsSub (l sub : List Char) : Bool :=
  match l with
  | [] => sub.isEmpty
  | _ :: as => listPrefixOf sub l || containsSub as sub

/-- Python `sub in s` substring test. -/
def pyContains (s sub : String) : Bool :=
  containsSub s.data sub.data

/-! ## `datetime`: the timestamp model

`datetime.isoformat` / `datetime.fromisoformat` are Python standard library;
they are modelled by executable re-implementations of their documented
format `YYYY-MM-DD[<sep>HH[:MM[:SS[.fff[fff]]]]]`. -/

structure DateTime where
  year : Nat
  month : Nat
  day : Nat
  hour : Nat
  minute : Nat
  second : Nat
  microsecond : Nat
deriving DecidableEq, Repr

def isLeapYear (y : Nat) : Bool :=
  (y % 4 = 0 && y % 100 ≠ 0) || y % 400 = 0

def daysInMonth (y m : Nat) : Nat :=
  if m = 2 then (if isLeapYear y then 29 else 28)
  else if m = 4 ∨ m = 6 ∨ m = 9 ∨ m = 11 then 30
  else 31

/-- The range checks `datetime.__new__` performs on its arguments. -/
def DateTime.valid (d : DateTime) : Bool :=
  1 ≤ d.year && d.year ≤ 9999 && 1 ≤ d.month && d.month ≤ 12 &&
  1 ≤ d.day && d.day ≤ daysInMonth d.year d.month &&
  d.hour ≤ 23 && d.minute ≤ 59 && d.second ≤ 59 && d.microsecond ≤ 999999

/-- Zero-padded decimal rendering of width `w`. -/
def padNum (w n : Nat) : String :=
  ⟨List.replicate (w - (toString n).length) '0' ++ (toString n).data⟩

/-- `datetime.isoformat()`: `YYYY-MM-DDTHH:MM:SS`, with `.ffffff` appended
exactly when the microsecond field is non-zero. -/
def DateTime.isoformat (d : DateTime) : String :=
  padNum 4 d.year ++ "-" ++ padNum 2 d.month ++ "-" ++ padNum 2 d.day ++ "T" ++
  padNum 2 d.hour ++ ":" ++ padNum 2 d.minute ++ ":" ++ padNum 2 d.second ++
  (if d.microsecond = 0 then "" else "." ++ padNum 6 d.microsecond)

/-- Fractional-second part: exactly 3 or 6 digits. -/
def parseMicro (l : List Char) : Option Nat :=
  if l.length = 3 then (parseNatDigits l).map (· * 1000)
  else if l.length = 6 then parseNatDigits l
  else none

/-- `HH[:MM[:SS[.fff[fff]]]]` part of an ISO string. -/
def parseTimeOfDay : List Char → Option (Nat × Nat × Nat × Nat)
  | [h1, h2] => do
      let h ← parseNatDigits [h1, h2]
      pure (h, 0, 0, 0)
  | [h1, h2, ':', m1, m2] => do
      let h ← parseNatDigits [h1, h2]
      let m ← parseNatDigits [m1, m2]
      pure (h, m, 0, 0)
  | h1 :: h2 :: ':' :: m1 :: m2 :: ':' :: s1 :: s2 :: rest => do
      let h ← parseNatDigits [h1, h2]
      let m ← parseNatDigits [m1, m2]
      let sec ← parseNatDigits [s1, s2]
      match rest with
      | [] => pure (h, m, sec, 0)
      | '.' :: frac => do
          let us ← parseMicro frac
          pure (h, m, sec, us)
      | _ => none
  | _ => none

/-- `datetime.fromisoformat(s)`: a 10-character date, optionally followed by a
single separator character and a time of day; `none` models `ValueError`. -/
def DateTime.fromisoformat (s : String) : Option DateTime :=
  match s.data.take 10, s.data.drop 10 with
  | [y1, y2, y3, y4, '-', m1, m2, '-', d1, d2], rest => do
      let y ← parseNatDigits [y1, y2, y3, y4]
      let mo ← parseNatDigits [m1, m2]
      let d ← parseNatDigits [d1, d2]
      let (h, mi, sec, us) ←
        match rest with
        | [] => some (0, 0, 0, 0)
        | _ :: tl => parseTimeOfDay tl
      let dt : DateTime := ⟨y, mo, d, h, mi, sec, us⟩
      if dt.valid then some dt else none
  | _, _ => none

/-! ## `urllib.parse.urlparse(...).netloc`

Model of the scheme/netloc part of CPython's `urlsplit`: a leading
`scheme:` (first character alphabetic, all characters in the scheme
alphabet, colon not first) is stripped; the netloc is then the text after a
leading `//`, up to the first `/`, `?` or `#`; otherwise it is empty. -/

/-- Characters CPython allows in a URL scheme. -/
def isSchemeChar (c : Char) : Bool :=
  c.isAlpha || c.isDigit || c = '+' || c = '-' || c = '.'

/-- Split at the first `':'`: `some (before, after)` when a colon occurs. -/
def splitOnColon : List Char → Option (List Char × List Char)
  | [] => none
  | c :: cs =>
    if c = ':' then some ([], cs)
    else match splitOnColon cs with
      | some (pre, post) => some (c :: pre, post)
      | none => none

/-- CPython's scheme guard: the text before the colon is non-empty (`i > 0`),
starts with a letter, and uses only scheme characters. -/
def schemeOk (pre : List Char) : Bool :=
  !pre.isEmpty && (pre.headD ' ').isAlpha && pre.all isSchemeChar

/-- Drop a valid `scheme:` prefix, if present. -/
def stripScheme (l : List Char) : List Char :=
  match splitOnColon l with
  | some (pre, post) => if schemeOk pre then post else l
  | none => l

/-- A character that terminates the netloc. -/
def netlocEnd (c : Char) : Bool :=
  c = '/' || c = '?' || c = '#'

/-- Netloc of the scheme-stripped remainder (`url[:2] == '//'`, then up to
the first `/`, `?` or `#`). -/
def parseNetloc (l : List Char) : List Char :=
  if listPrefixOf ['/', '/'] l then (l.drop 2).takeWhile (fun c => !netlocEnd c)
  else []

/-- `urlparse(url).netloc`. -/
def urlNetloc (url : String) : String :=
  ⟨parseNetloc (stripScheme url.data)⟩

/-! ## The `Story` model (`hackernews_scraper/models/story.py`) -/

/-- The constructor arguments of the `Story` dataclass, before
`__post_init__` runs: an unvalidated candidate record.  `url` is the raw
`href` attribute (possibly `None`), `story_id` the raw `id` attribute
(possibly `None`). -/
structure Candidate where
  title : String
  url : Option String
  points : Int
  username : String
  comment_count : Int
  story_id : Option String
  time : Option DateTime
deriving DecidableEq, Repr

/-- A `Story` after `__post_init__` has run. -/
structure Story where
  title : String
  url : Option String
  points : Int
  username : String
  comment_count : Int
  story_id : Option String
  time : Option DateTime
deriving DecidableEq, Repr

/-- The f-string `f"https://news.ycombinator.com/item?id={self.story_id}"`;
a `None` id renders as the text `"None"`. -/
def synthesizedUrl (sid : Option String) : String :=
  "https://news.ycombinator.com/item?id=" ++ (match sid with
    | none => "None"
    | some s => s)

/-- `Story.__post_init__`: raises `ValueError` on an empty title, synthesizes
`url` when falsy, clamps negative `points`, defaults an empty `username` to
`"unknown"`, clamps negative `comment_count`, raises `ValueError` on a falsy
`story_id`.  Checks happen in exactly this order. -/
def mkStory (c : Candidate) : Except String Story :=
  if pyEmpty c.title then .error "Story title cannot be empty"
  else
    let url := if pyFalsy c.url then some (synthesizedUrl c.story_id) else c.url
    let points := if c.points < 0 then 0 else c.points
    let username := if pyEmpty c.username then "unknown" else c.username
    let cc := if c.comment_count < 0 then 0 else c.comment_count
    if pyFalsy c.story_id then .error "Story ID cannot be empty"
    else .ok { title := c.title, url := url, points := points, username := username,
               comment_count := cc, story_id := c.story_id, time := c.time }

/-- The derived `Story.domain` property: `None` for a falsy url, else
`urlparse(url).netloc`.  Computed on demand, never stored. -/
def Story.domain (s : Story) : Option String :=
  match s.url with
  | none => none
  | some u => if pyEmpty u then none else some (urlNetloc u)

/-- Generic `Except` error test. -/
def isError : Except ε α → Bool
  | .error _ => true
  | .ok _ => false

/-! ## Persistence (`Story.to_dict` / `Story.from_dict`, `FileStorage`)

`FileStorage.save_stories` serializes `[story.to_dict() for story in stories]`
as JSON and `load_stories` reads it back; the JSON encode/decode of a list of
flat dictionaries is the identity on the dictionary data, so the stored file
is modelled as the list of dictionaries itself. -/

/-- The dictionary produced by `Story.to_dict` (the on-disk record shape). -/
structure StoryDict where
  title : String
  url : Option String
  points : Int
  username : String
  comment_count : Int
  story_id : Option String
  time : Option String
  domain : Option String
deriving DecidableEq, Repr

/-- `Story.to_dict`: all fields verbatim, `time` as `isoformat()` (or `None`),
plus the derived `domain` as a convenience field. -/
def Story.to_dict (s : Story) : StoryDict :=
  { title := s.title, url := s.url, points := s.points, username := s.username,
    comment_count := s.comment_count, story_id := s.story_id,
    time := s.time.map DateTime.isoformat, domain := s.domain }

/-- `Story.from_dict`: drops the `domain` key, parses `time` with
`datetime.fromisoformat` (raising on a malformed string), and re-runs the
`Story` constructor (hence `__post_init__`) on the remaining fields. -/
def Story.from_dict (d : StoryDict) : Except String Story :=
  match d.time with
  | none =>
    mkStory { title := d.title, url := d.url, points := d.points,
              username := d.username, comment_count := d.comment_count,
              story_id := d.story_id, time := none }
  | some ts =>
    match DateTime.fromisoformat ts with
    | some t =>
      mkStory { title := d.title, url := d.url, points := d.points,
                username := d.username, comment_count := d.comment_count,
                story_id := d.story_id, time := some t }
    | none => .error "Invalid isoformat string"

/-- The `__post_init__` fixed point: the field shape every constructed
`Story` has (non-empty title, truthy url, non-negative counts, non-empty
username, truthy id). -/
def StoryValid (s : Story) : Bool :=
  !pyEmpty s.title && !pyFalsy s.url && 0 ≤ s.points &&
  !pyEmpty s.username && 0 ≤ s.comment_count && !pyFalsy s.story_id

/-- Does the record's timestamp survive the standard library's
`fromisoformat ∘ isoformat` round trip?  (True for every real `datetime`;
kept as a checkable side condition of the embedded codec.) -/
def timeCodecOk (s : Story) : Bool :=
  match s.time with
  | none => true
  | some t => DateTime.fromisoformat t.isoformat == some t

/-- `FileStorage.save_stories`: the stored document. -/
def save_stories (stories : List Story) : List StoryDict :=
  stories.map Story.to_dict

/-- `FileStorage.load_stories`: read every stored dictionary back into a
`Story`; any per-record failure aborts the load with a `StorageError`. -/
def load_stories (file : List StoryDict) : Except String (List Story) :=
  file.mapM Story.from_dict

/-! ## The page parser (`_parse_item` / the parse stage of `scrape_page`)

The two scraper variants (`hackernews-scraper/core/scraper.py` lines 127–187
and `hackernews_scraper/core/async_scraper.py` lines 114–174) contain
character-identical `_parse_item` logic; it is embedded once.  The HTML
grammar is out of scope, so a listing row is modelled by the element data the
parser extracts from it. -/

/-- The metadata row (`.subtext` in the following sibling `tr`). -/
structure Subtext where
  /-- Text of the `.score` element, when present. -/
  score : Option String
  /-- Text of the `.hnuser` element, when present. -/
  hnuser : Option String
  /-- `title` attribute of the `.age` element: `none` when the element is
  absent; `some ""` when the element exists without the attribute
  (`time_elem.get('title', '')`). -/
  age : Option String
  /-- Texts of the `a` elements inside the subtext, in document order. -/
  links : List String
deriving DecidableEq, Repr

/-- One `tr.athing` listing row, as seen by `_parse_item`. -/
structure RawItem where
  /-- `(text, href)` of the `.titleline > a` anchor, when present. -/
  titleAnchor : Option (String × Option String)
  /-- The row's `id` attribute. -/
  itemId : Option String
  /-- The `.subtext` of the next sibling row; `none` when the sibling or the
  `.subtext` is missing (an `AttributeError` swallowed by the outer handler). -/
  subtext : Option Subtext
deriving DecidableEq, Repr

/-- `int(elem.text.split()[0])` where an `IndexError`/`ValueError` escapes to
the caller (`none` = the exception). -/
def intOfFirstToken (text : String) : Option Int :=
  match pySplit text with
  | [] => none
  | w :: _ => pyInt w

/-- `_parse_item`: `none` models every way the item can fail to yield a
`Story` — a missing title anchor or subtext (explicit `return None`), a
malformed score (exception caught by the outer handler), or a `ValueError`
raised by the `Story` constructor itself.  A malformed comment count or
timestamp is recovered locally with a default instead. -/
def parseItem (now : DateTime) (item : RawItem) : Option Story :=
  match item.titleAnchor with
  | none => none
  | some (text, href) =>
    match item.subtext with
    | none => none
    | some sub =>
      let pointsE : Option Int :=
        match sub.score with
        | none => some 0
        | some sc => intOfFirstToken sc
      match pointsE with
      | none => none
      | some points =>
        let username := match sub.hnuser with
          | some u => u
          | none => "unknown"
        let post_time : DateTime :=
          match sub.age with
          | none => now
          | some tstr =>
            if pyEmpty tstr then now
            else match pySplit tstr with
              | [] => now
              | w :: _ =>
                match DateTime.fromisoformat w with
                | some t => t
                | none => now
        let comment_elem := sub.links.find? (fun t => pyContains (pyLower t) "comment")
        let comment_count : Int :=
          match comment_elem with
          | none => 0
          | some t =>
            match intOfFirstToken t with
            | some n => n
            | none => 0
        match mkStory { title := pyStrip text, url := href, points := points,
                        username := username, comment_count := comment_count,
                        story_id := item.itemId, time := some post_time } with
        | .ok s => some s
        | .error _ => none

/-- The parse stage of `scrape_page`: every item is tried independently, the
successes are kept in order (`stories.append` inside the `for` loop whose
`except` clause `continue`s). -/
def parseStories (now : DateTime) (items : List RawItem) : List Story :=
  items.filterMap (parseItem now)

/-- The number of listing items that failed to yield a `Story` (each one is
logged, but only logged). -/
def failedItems (now : DateTime) (items : List RawItem) : Nat :=
  (items.filter (fun it => (parseItem now it).isNone)).length

/-! ## The pipeline (`scrape_stories`, both variants)

Network I/O is out of scope, so a run is parameterized by an oracle giving
the outcome of each HTTP attempt: `attempts page k` is what the `k`-th (0
based) `session.get` for that page's URL produces — the markup's listing
rows on success, the exception text on failure. -/

structure RunEnv where
  /-- Outcome of attempt `k` of fetching page `p`. -/
  attempts : Nat → Nat → Except String (List RawItem)
  /-- `config.max_retries` (default 3). -/
  maxRetries : Nat
  /-- `datetime.now()` during the run (parse-time default timestamp). -/
  now : DateTime

/-- The retry loop of `_make_request` with `n` attempts remaining, the next
being attempt number `k`: return the first success; re-raise the last
failure as a `ScrapingError`/`ScraperError`.  (With `max_retries = 0` the
Python loop body never runs and the function falls through returning `None`,
which the caller turns into the same page-level error.) -/
def makeRequestFrom (attempt : Nat → Except String (List RawItem)) :
    Nat → Nat → Except String (List RawItem)
  | _, 0 => .error "no attempt made"
  | k, n + 1 =>
    match attempt k with
    | .ok v => .ok v
    | .error e =>
      match n with
      | 0 => .error ("Failed to fetch: " ++ e)
      | m + 1 => makeRequestFrom attempt (k + 1) (m + 1)

/-- `_make_request` for one page: attempts `0 .. max_retries - 1`. -/
def fetchPage (env : RunEnv) (page : Nat) : Except String (List RawItem) :=
  makeRequestFrom (env.attempts page) 0 env.maxRetries

/-- Sequential `HackerNewsScraper.scrape_page`: any failure (fetch included)
is re-raised as `ScrapingError` — the page is fatal to the caller. -/
def scrapePageSeq (env : RunEnv) (page : Nat) : Except String (List Story) :=
  match fetchPage env page with
  | .error e => .error ("Failed to scrape page: " ++ e)
  | .ok items => .ok (parseStories env.now items)

/-- Concurrent `AsyncHackerNewsScraper.scrape_page`: any failure is caught
and the page yields `[]` — non-fatal. -/
def scrapePageAsync (env : RunEnv) (page : Nat) : List Story :=
  match fetchPage env page with
  | .error _ => []
  | .ok items => parseStories env.now items

/-- The page loop of the sequential `scrape_stories`: the stop flag is read
at the top of each iteration; a page error propagates, discarding the
accumulated stories.  Returns the accumulated stories and the pages
actually fetched. -/
def seqLoop (env : RunEnv) (stop : Bool) : List Nat → Except String (List Story × List Nat)
  | [] => .ok ([], [])
  | p :: ps =>
    if stop then .ok ([], [])
    else
      match scrapePageSeq env p with
      | .error e => .error e
      | .ok stories =>
        match seqLoop env stop ps with
        | .error e => .error e
        | .ok (rest, pages) => .ok (stories ++ rest, p :: pages)

/-- Sequential `scrape_stories(num_pages)`: pages `1 .. num_pages` in order;
the `except` clause wraps any escaping exception in a run-level
`ScrapingError`, so no partial result survives a page failure. -/
def scrapeStoriesSeq (env : RunEnv) (stop : Bool) (numPages : Nat) :
    Except String (List Story × List Nat) :=
  match seqLoop env stop (List.range' 1 numPages) with
  | .error e => .error ("Failed to scrape stories: " ++ e)
  | .ok r => .ok r

/-- The page loop of the concurrent `scrape_stories`: same shape, but
`scrape_page` is total, so the loop always completes. -/
def asyncLoop (env : RunEnv) (stop : Bool) : List Nat → List Story × List Nat
  | [] => ([], [])
  | p :: ps =>
    if stop then ([], [])
    else
      let stories := scrapePageAsync env p
      let (rest, pages) := asyncLoop env stop ps
      (stories ++ rest, p :: pages)

/-- Concurrent `scrape_stories(num_pages)`. -/
def scrapeStoriesAsync (env : RunEnv) (stop : Bool) (numPages : Nat) :
    List Story × List Nat :=
  asyncLoop env stop (List.range' 1 numPages)

/-! ## Construction and instance state

`HackerNewsScraper.__init__` fetches and parses `robots.txt` inside
`_load_robots_txt`, which wraps any failure in a `RobotsTxtError`.
`AsyncHackerNewsScraper.__init__` contains the line
`self._load_robots_txt()` — but that method is an `async def`, so the call
merely builds a coroutine object that is never awaited: neither the fetch,
nor the parse, nor the `logger.warning` in its `except` clause ever runs. -/

/-- Sequential scraper instance state. -/
structure SeqScraper where
  /-- Text parsed into `robot_parser`; `none` = the parser's initial
  (empty, permissive) state. -/
  robotRules : Option String
  stopFlag : Bool
  scraping : Bool
deriving DecidableEq, Repr

/-- Concurrent scraper instance state. -/
structure AsyncScraper where
  robotRules : Option String
  /-- Whether the `"Failed to load robots.txt"` warning was logged. -/
  warned : Bool
  stopFlag : Bool
  scraping : Bool
deriving DecidableEq, Repr

/-- `HackerNewsScraper.__init__`, given the outcome of the `robots.txt`
request: parse the body on success, raise `RobotsTxtError` on any failure. -/
def mkSeqScraper (robotsFetch : Except String String) : Except String SeqScraper :=
  match robotsFetch with
  | .ok txt => .ok { robotRules := some txt, stopFlag := false, scraping := false }
  | .error e => .error ("Failed to load robots.txt: " ++ e)

/-- `AsyncHackerNewsScraper.__init__`, given the outcome the `robots.txt`
request would have: the un-awaited coroutine never runs, so the outcome is
never consulted, the parser stays empty and no warning is logged.
(`_scraping` is initialized to `True` in this variant.) -/
def mkAsyncScraper (robotsFetch : Except String String) : AsyncScraper :=
  match robotsFetch with
  | _ => { robotRules := none, warned := false, stopFlag := false, scraping := true }

/-- The operations a caller can invoke on a scraper instance. -/
inductive ScraperOp where
  /-- `stop_scraping()`. -/
  | stopScraping
  /-- `scrape_stories(n)` (the call itself; flags are only read). -/
  | scrapeStories (numPages : Nat)
  /-- `scrape_page(p)`. -/
  | scrapePage (page : Nat)
  /-- `start_scraping(n)` (sets `_scraping`; raises if already scraping). -/
  | startScraping (numPages : Nat)
  /-- The `finally` block of a background run resetting `_scraping`. -/
  | finishRun
deriving DecidableEq, Repr

/-- Flag effects of each operation on the sequential instance: only
`stop_scraping` writes `_stop_flag`, and only to `True`. -/
def seqStep (st : SeqScraper) : ScraperOp → SeqScraper
  | .stopScraping => { st with scraping := false, stopFlag := true }
  | .startScraping _ => if st.scraping then st else { st with scraping := true }
  | .finishRun => { st with scraping := false }
  | _ => st

/-- Flag effects of each operation on the concurrent instance. -/
def asyncStep (st : AsyncScraper) : ScraperOp → AsyncScraper
  | .stopScraping => { st with stopFlag := true, scraping := false }
  | .startScraping _ => if st.scraping then st else { st with scraping := true }
  | .finishRun => { st with scraping := false }
  | _ => st

/-! ## Timing (`_respect_rate_limit` / `_make_request`)

Wall-clock time is modelled by `ℚ`.  Every `session.get` of a run is
immediately preceded by `_respect_rate_limit`, which reads the clock,
sleeps for the remainder of `rate_limit` if less than that has elapsed
since `last_request_time`, and then stores a fresh clock reading in
`last_request_time`; the request starts at that stored instant.  The
environment supplies, for each request, the time `δ` that passed since the
previous request's start before `_respect_rate_limit` read the clock, and
the time `ε` between the end of the sleep and the second clock reading
(`time.sleep` never wakes early; both are non-negative). -/

/-- Start time of the next request, given the previous one started at
`last`. -/
def nextRequestStart (rl last δ ε : ℚ) : ℚ :=
  let c := last + δ
  let afterSleep := if c - last < rl then c + (rl - (c - last)) else c
  afterSleep + ε

/-- Start times of a run's successive requests, from the drift environment:
one `(δ, ε)` pair per request after the first. -/
def requestStarts (rl : ℚ) (first : ℚ) : List (ℚ × ℚ) → List ℚ
  | [] => [first]
  | (δ, ε) :: rest => first :: requestStarts rl (nextRequestStart rl first δ ε) rest

/-! ## Concrete fixtures used by witnesses and counterexamples -/

/-- A candidate with negative counts but valid title and id. -/
def cNeg : Candidate :=
  { title := "A story", url := some "https://example.com/a", points := -7,
    username := "alice", comment_count := -3, story_id := some "101", time := none }

/-- A candidate with every defaulting rule firing at once. -/
def cBare : Candidate :=
  { title := "Bare", url := none, points := -1, username := "",
    comment_count := -2, story_id := some "202", time := none }

/-- A candidate with an empty title (rejected by validation). -/
def cNoTitle : Candidate :=
  { title := "", url := some "https://example.com/b", points := 3,
    username := "bob", comment_count := 1, story_id := some "303", time := none }

/-- A fixed `datetime.now()` for concrete runs. -/
def now0 : DateTime := ⟨2024, 1, 15, 12, 0, 0, 0⟩

/-- A well-formed listing row. -/
def goodItem : RawItem :=
  { titleAnchor := some ("Good story", some "https://example.com/good"),
    itemId := some "1001",
    subtext := some { score := some "10 points", hnuser := some "alice",
                      age := some "2024-01-15T08:30:00 1705307400",
                      links := ["hide", "5 comments"] } }

/-- A listing row with no title anchor (skipped by the parser). -/
def badNoAnchor : RawItem :=
  { titleAnchor := none, itemId := some "1002", subtext := none }

/-- A listing row whose score text is non-numeric (the `int(...)` call
raises and the outer handler drops the item). -/
def badScore : RawItem :=
  { titleAnchor := some ("Bad score", some "https://example.com/bad"),
    itemId := some "1003",
    subtext := some { score := some "banana points", hnuser := none,
                      age := none, links := [] } }

/-- An environment whose every fetch succeeds with one good item. -/
def envOk : RunEnv :=
  { attempts := fun _ _ => .ok [goodItem], maxRetries := 3, now := now0 }

/-- A freshly constructed sequential instance on which `stop_scraping` was
called. -/
def stoppedSeq : SeqScraper :=
  seqStep { robotRules := none, stopFlag := false, scraping := false } ScraperOp.stopScraping

/-- A freshly constructed concurrent instance on which `stop_scraping` was
called. -/
def stoppedAsync : AsyncScraper :=
  asyncStep { robotRules := none, warned := false, stopFlag := false, scraping := true }
    ScraperOp.stopScraping

/-- A later workload thrown at a stopped instance. -/
def opsLater : List ScraperOp :=
  [ScraperOp.startScraping 3, ScraperOp.scrapePage 1, ScraperOp.finishRun]

/-- An environment where every attempt at page 2 fails and every other page
succeeds with one good item. -/
def envFail : RunEnv :=
  { attempts := fun p _ => if p = 2 then .error "Connection timed out" else .ok [goodItem],
    maxRetries := 3, now := now0 }

/-- A listing row with id `"1001"`. -/
def itemA : RawItem :=
  { titleAnchor := some ("First copy", some "https://example.com/x"),
    itemId := some "1001",
    subtext := some { score := some "3 points", hnuser := some "carol",
                      age := none, links := [] } }

/-- A different listing row that reuses id `"1001"`. -/
def itemB : RawItem :=
  { titleAnchor := some ("Second copy", some "https://example.com/y"),
    itemId := some "1001",
    subtext := some { score := some "8 points", hnuser := some "dave",
                      age := none, links := ["2 comments"] } }

/-- A two-page environment whose pages repeat the same story id. -/
def envDup : RunEnv :=
  { attempts := fun p _ => if p = 1 then .ok [itemA] else .ok [itemB],
    maxRetries := 3, now := now0 }

/-- The record `itemA` parses to. -/
def storyA : Story :=
  { title := "First copy", url := some "https://example.com/x", points := 3,
    username := "carol", comment_count := 0, story_id := some "1001",
    time := some now0 }

/-- The record `itemB` parses to — same id as `storyA`, different fields. -/
def storyB : Story :=
  { title := "Second copy", url := some "https://example.com/y", points := 8,
    username := "dave", comment_count := 2, story_id := some "1001",
    time := some now0 }

/-- A valid record with no timestamp (`time = None`). -/
def storyNoTime : Story :=
  { title := "No time", url := some "https://example.org/z", points := 1,
    username := "erin", comment_count := 0, story_id := some "77", time := none }

/-- A valid record with a microsecond-precision timestamp. -/
def storyMicro : Story :=
  { title := "Precise", url := some "https://example.org/w", points := 2,
    username := "fred", comment_count := 4, story_id := some "88",
    time := some ⟨2023, 2, 28, 23, 59, 59, 123456⟩ }

/-! ## Theorems -/

/-- On success, `__post_init__` produces exactly the field-by-field
defaulted/clamped record. -/
theorem mkStory_ok (c : Candidate) (ht : pyEmpty c.title = false)
    (hi : pyFalsy c.story_id = false) :
    mkStory c = .ok
      { title := c.title,
        url := if pyFalsy c.url then some (synthesizedUrl c.story_id) else c.url,
        points := if c.points < 0 then 0 else c.points,
        username := if pyEmpty c.username then "unknown" else c.username,
        comment_count := if c.comment_count < 0 then 0 else c.comment_count,
        story_id := c.story_id, time := c.time } := by
  simp [mkStory, ht, hi]

/-- Claim C5: a candidate with non-empty title and id always validates, and
the resulting record's score and discussion count are non-negative even when
the inputs are negative — negative inputs are clamped to zero. -/
theorem C5_validation_clamps (c : Candidate)
    (ht : pyEmpty c.title = false) (hi : pyFalsy c.story_id = false) :
    ∃ s, mkStory c = .ok s ∧ 0 ≤ s.points ∧ 0 ≤ s.comment_count ∧
      (c.points < 0 → s.points = 0) ∧ (c.comment_count < 0 → s.comment_count = 0) := by
  refine ⟨_, mkStory_ok c ht hi, ?_, ?_, ?_, ?_⟩
  · dsimp only
    split <;> omega
  · dsimp only
    split <;> omega
  · intro h
    dsimp only
    rw [if_pos h]
  · intro h
    dsimp only
    rw [if_pos h]

/-- Witness for C5 at a concrete candidate with negative score and count. -/
theorem C5_validation_clamps_witness :
    ∃ s, mkStory cNeg = .ok s ∧ 0 ≤ s.points ∧ 0 ≤ s.comment_count ∧
      (cNeg.points < 0 → s.points = 0) ∧ (cNeg.comment_count < 0 → s.comment_count = 0) :=
  C5_validation_clamps cNeg (by decide) (by decide)

/-- Claim C6: validation fails exactly when the title is empty or the id is
falsy; every other candidate yields the record with the defaulting rules
applied — url synthesized when absent, author defaulted to `"unknown"`,
negative counts clamped. -/
theorem C6_validation_exact (c : Candidate) :
    (isError (mkStory c) = true ↔ (pyEmpty c.title = true ∨ pyFalsy c.story_id = true)) ∧
    (∀ s, mkStory c = .ok s →
      s.title = c.title ∧
      s.url = (if pyFalsy c.url then some (synthesizedUrl c.story_id) else c.url) ∧
      s.points = (if c.points < 0 then 0 else c.points) ∧
      s.username = (if pyEmpty c.username then "unknown" else c.username) ∧
      s.comment_count = (if c.comment_count < 0 then 0 else c.comment_count) ∧
      s.story_id = c.story_id ∧ s.time = c.time) := by
  cases ht : pyEmpty c.title with
  | true =>
    constructor
    · simp [mkStory, ht, isError]
    · intro s hs
      simp [mkStory, ht] at hs
  | false =>
    cases hi : pyFalsy c.story_id with
    | true =>
      constructor
      · simp [mkStory, ht, hi, isError]
      · intro s hs
        simp [mkStory, ht, hi] at hs
    | false =>
      constructor
      · simp [mkStory_ok c ht hi, isError]
      · intro s hs
        rw [mkStory_ok c ht hi] at hs
        cases hs
        simp

/-- Witness for C6 at concrete candidates: the all-defaults candidate
succeeds with the described fields, and the empty-title candidate errors. -/
theorem C6_validation_exact_witness :
    (pyEmpty cNoTitle.title = true ∨ pyFalsy cNoTitle.story_id = true) ∧
    ∀ s, mkStory cBare = .ok s →
      s.title = cBare.title ∧
      s.url = (if pyFalsy cBare.url then some (synthesizedUrl cBare.story_id) else cBare.url) ∧
      s.points = (if cBare.points < 0 then 0 else cBare.points) ∧
      s.username = (if pyEmpty cBare.username then "unknown" else cBare.username) ∧
      s.comment_count = (if cBare.comment_count < 0 then 0 else cBare.comment_count) ∧
      s.story_id = cBare.story_id ∧ s.time = cBare.time :=
  ⟨(C6_validation_exact cNoTitle).1.mp (by decide), (C6_validation_exact cBare).2⟩

/-- A prefix of `l` is a prefix of `l ++ r`. -/
theorem listPrefixOf_append {p l : List Char} (h : listPrefixOf p l = true)
    (r : List Char) : listPrefixOf p (l ++ r) = true := by
  induction p generalizing l with
  | nil => simp [listPrefixOf]
  | cons a as ih =>
    cases l with
    | nil => simp [listPrefixOf] at h
    | cons b bs =>
      simp only [listPrefixOf, Bool.and_eq_true, decide_eq_true_eq] at h
      simp only [List.cons_append, listPrefixOf, Bool.and_eq_true, decide_eq_true_eq]
      exact ⟨h.1, ih h.2⟩

/-- Appending after the first colon does not change where it splits. -/
theorem splitOnColon_append {l a b : List Char} (h : splitOnColon l = some (a, b))
    (r : List Char) : splitOnColon (l ++ r) = some (a, b ++ r) := by
  induction l generalizing a with
  | nil => simp [splitOnColon] at h
  | cons c cs ih =>
    by_cases hc : c = ':'
    · subst hc
      simp only [splitOnColon, if_true, Option.some.injEq, Prod.mk.injEq, reduceIte] at h
      obtain ⟨h1, h2⟩ := h
      subst h1
      subst h2
      simp [splitOnColon]
    · simp only [splitOnColon, if_neg hc] at h
      simp only [List.cons_append, splitOnColon, if_neg hc]
      cases hsc : splitOnColon cs with
      | none => rw [hsc] at h; simp at h
      | some pr =>
        obtain ⟨pre, post⟩ := pr
        rw [hsc] at h
        simp only [Option.some.injEq, Prod.mk.injEq] at h
        obtain ⟨h1, h2⟩ := h
        subst h2
        rw [show cs.append r = cs ++ r from rfl, ih hsc]
        simp [h1]

/-- `takeWhile` stops at the first failing element after an all-passing run. -/
theorem takeWhile_append_stop (p : Char → Bool) (l₁ : List Char) (c : Char) (l₂ : List Char)
    (h1 : l₁.all p = true) (hc : p c = false) :
    (l₁ ++ c :: l₂).takeWhile p = l₁ := by
  induction l₁ with
  | nil => simp [List.takeWhile_cons, hc]
  | cons a as ih =>
    simp only [List.all_cons, Bool.and_eq_true] at h1
    simp [List.takeWhile_cons, h1.1, ih h1.2]

/-- A list with a non-empty left part is non-empty. -/
theorem isEmpty_append_left {l₁ : List Char} (h : l₁.isEmpty = false)
    (l₂ : List Char) : (l₁ ++ l₂).isEmpty = false := by
  cases l₁ with
  | nil => simp [List.isEmpty] at h
  | cons a as => simp [List.isEmpty]

/-- `takeWhile` over the synthesized host stops at the path slash, whatever
follows it. -/
theorem takeWhile_news (tail : List Char) :
    List.takeWhile (fun c => !netlocEnd c) ("news.ycombinator.com/item?id=".data ++ tail)
      = "news.ycombinator.com".data := by
  have hd : "news.ycombinator.com/item?id=".data ++ tail
      = "news.ycombinator.com".data ++ '/' :: ("item?id=".data ++ tail) := by
    rw [show "news.ycombinator.com/item?id=".data
        = "news.ycombinator.com".data ++ ('/' :: "item?id=".data) from by decide,
      List.append_assoc]
    rfl
  rw [hd]
  apply takeWhile_append_stop
  · decide
  · decide

/-- The synthesized canonical link always has netloc `news.ycombinator.com`,
whatever the id suffix. -/
theorem urlNetloc_synth (sid : String) :
    urlNetloc ("https://news.ycombinator.com/item?id=" ++ sid) = "news.ycombinator.com" := by
  have h1 : splitOnColon ("https://news.ycombinator.com/item?id=".data)
      = some ("https".data, "//news.ycombinator.com/item?id=".data) := by decide
  have hs : stripScheme (("https://news.ycombinator.com/item?id=" ++ sid).data)
      = "//news.ycombinator.com/item?id=".data ++ sid.data := by
    unfold stripScheme
    rw [String.data_append, splitOnColon_append h1 sid.data]
    simp [show schemeOk ("https".data) = true from by decide]
  have hp : parseNetloc ("//news.ycombinator.com/item?id=".data ++ sid.data)
      = "news.ycombinator.com".data := by
    unfold parseNetloc
    rw [if_pos (listPrefixOf_append (by decide) sid.data),
      List.drop_append_of_le_length (by decide),
      show "//news.ycombinator.com/item?id=".data.drop 2
        = "news.ycombinator.com/item?id=".data from by decide]
    exact takeWhile_news sid.data
  unfold urlNetloc
  rw [hs, hp]

/-- Claim C7: a candidate missing its url validates to a record whose url is
the canonical synthesized link containing the candidate's id, and whose
derived domain is the default host `news.ycombinator.com`. -/
theorem C7_synth_url_domain (c : Candidate) (hu : pyFalsy c.url = true)
    (ht : pyEmpty c.title = false) (hi : pyFalsy c.story_id = false) :
    ∃ s sid, c.story_id = some sid ∧ mkStory c = .ok s ∧
      s.url = some ("https://news.ycombinator.com/item?id=" ++ sid) ∧
      s.domain = some "news.ycombinator.com" := by
  obtain ⟨sid, hsid⟩ : ∃ sid, c.story_id = some sid := by
    cases hcs : c.story_id with
    | none => rw [hcs] at hi; simp [pyFalsy] at hi
    | some v => exact ⟨v, rfl⟩
  have hsynth : synthesizedUrl c.story_id = "https://news.ycombinator.com/item?id=" ++ sid := by
    rw [hsid]; rfl
  refine ⟨_, sid, hsid, mkStory_ok c ht hi, ?_, ?_⟩
  · dsimp only
    rw [if_pos hu, hsynth]
  · have hne : pyEmpty ("https://news.ycombinator.com/item?id=" ++ sid) = false := by
      unfold pyEmpty
      rw [String.data_append]
      exact isEmpty_append_left (by decide) _
    unfold Story.domain
    dsimp only
    rw [if_pos hu, hsynth]
    simp [hne, urlNetloc_synth]

/-- Witness for C7 at the concrete all-defaults candidate `cBare`. -/
theorem C7_synth_url_domain_witness :
    ∃ s sid, cBare.story_id = some sid ∧ mkStory cBare = .ok s ∧
      s.url = some ("https://news.ycombinator.com/item?id=" ++ sid) ∧
      s.domain = some "news.ycombinator.com" :=
  C7_synth_url_domain cBare (by decide) (by decide) (by decide)

/-- Claim C3 (what the code actually does, per variant): the sequential
constructor parses a retrievable policy and raises `RobotsTxtError` on an
unretrievable one; the concurrent constructor never awaits its loader
coroutine, so a retrievable policy is NOT loaded and the failure warning is
never logged — contradicting the claim's second half. -/
theorem C3_robots_load_asymmetry (txt e : String) :
    (∃ s, mkSeqScraper (.ok txt) = .ok s ∧ s.robotRules = some txt) ∧
    isError (mkSeqScraper (.error e)) = true ∧
    (mkAsyncScraper (.ok txt)).robotRules = none ∧
    (mkAsyncScraper (.error e)).warned = false :=
  ⟨⟨_, rfl, rfl⟩, rfl, rfl, rfl⟩

/-- One operation can never clear a set sequential stop flag. -/
theorem seqStep_keeps_stop {st : SeqScraper} (h : st.stopFlag = true)
    (op : ScraperOp) : (seqStep st op).stopFlag = true := by
  cases op <;> simp [seqStep, h]
  split <;> simp [h]

/-- One operation can never clear a set concurrent stop flag. -/
theorem asyncStep_keeps_stop {st : AsyncScraper} (h : st.stopFlag = true)
    (op : ScraperOp) : (asyncStep st op).stopFlag = true := by
  cases op <;> simp [asyncStep, h]
  split <;> simp [h]

/-- No sequence of operations clears a set sequential stop flag. -/
theorem foldl_seqStep_keeps_stop (ops : List ScraperOp) :
    ∀ st : SeqScraper, st.stopFlag = true → (ops.foldl seqStep st).stopFlag = true := by
  induction ops with
  | nil => exact fun st h => h
  | cons op rest ih => exact fun st h => ih _ (seqStep_keeps_stop h op)

/-- No sequence of operations clears a set concurrent stop flag. -/
theorem foldl_asyncStep_keeps_stop (ops : List ScraperOp) :
    ∀ st : AsyncScraper, st.stopFlag = true → (ops.foldl asyncStep st).stopFlag = true := by
  induction ops with
  | nil => exact fun st h => h
  | cons op rest ih => exact fun st h => ih _ (asyncStep_keeps_stop h op)

/-- With the stop flag set, the sequential page loop exits before its first
fetch. -/
theorem seqLoop_stopped (env : RunEnv) (ps : List Nat) :
    seqLoop env true ps = .ok ([], []) := by
  cases ps <;> simp [seqLoop]

/-- With the stop flag set, the sequential run returns no stories and
fetches no pages. -/
theorem scrapeStoriesSeq_stopped (env : RunEnv) (n : Nat) :
    scrapeStoriesSeq env true n = .ok ([], []) := by
  unfold scrapeStoriesSeq
  rw [seqLoop_stopped]

/-- With the stop flag set, the concurrent page loop exits before its first
fetch. -/
theorem asyncLoop_stopped (env : RunEnv) (ps : List Nat) :
    asyncLoop env true ps = ([], []) := by
  cases ps <;> simp [asyncLoop]

/-- Claim C10: once `stop_scraping` has set the stop flag, no later
operation on the instance ever clears it, and every later `scrape_stories`
call — on either variant, for any page count — returns the empty list
having fetched no page. -/
theorem C10_stop_is_permanent (ops : List ScraperOp) (st : SeqScraper)
    (ast : AsyncScraper) (hs : st.stopFlag = true) (ha : ast.stopFlag = true)
    (env : RunEnv) (n m : Nat) :
    (ops.foldl seqStep st).stopFlag = true ∧
    (ops.foldl asyncStep ast).stopFlag = true ∧
    scrapeStoriesSeq env (ops.foldl seqStep st).stopFlag n = .ok ([], []) ∧
    scrapeStoriesAsync env (ops.foldl asyncStep ast).stopFlag m = ([], []) := by
  have h1 := foldl_seqStep_keeps_stop ops st hs
  have h2 := foldl_asyncStep_keeps_stop ops ast ha
  refine ⟨h1, h2, ?_, ?_⟩
  · rw [h1]
    exact scrapeStoriesSeq_stopped env n
  · rw [h2]
    unfold scrapeStoriesAsync
    exact asyncLoop_stopped env _

/-- Witness for C10: a concrete stopped instance, a concrete later workload. -/
theorem C10_stop_is_permanent_witness :
    (opsLater.foldl seqStep stoppedSeq).stopFlag = true ∧
    (opsLater.foldl asyncStep stoppedAsync).stopFlag = true ∧
    scrapeStoriesSeq envOk (opsLater.foldl seqStep stoppedSeq).stopFlag 4 = .ok ([], []) ∧
    scrapeStoriesAsync envOk (opsLater.foldl asyncStep stoppedAsync).stopFlag 4 = ([], []) :=
  C10_stop_is_permanent opsLater stoppedSeq stoppedAsync (by decide) (by decide) envOk 4 4

/-- Each request starts at least `rate_limit` after the previous one. -/
theorem nextRequestStart_ge (rl last δ ε : ℚ) (hδ : 0 ≤ δ) (hε : 0 ≤ ε) :
    last + rl ≤ nextRequestStart rl last δ ε := by
  unfold nextRequestStart
  dsimp only
  split
  · linarith
  · rename_i h
    rw [not_lt] at h
    linarith

/-- A request-start trace always begins with its first start time. -/
theorem requestStarts_head (rl f : ℚ) (ds : List (ℚ × ℚ)) :
    (requestStarts rl f ds).head? = some f := by
  cases ds with
  | nil => rfl
  | cons p rest => obtain ⟨δ, ε⟩ := p; rfl

/-- Claim C9: with a non-negative rate limit and genuine (non-negative)
elapsed-time drifts, consecutive request start times of a run are always at
least `rate_limit` apart: `_respect_rate_limit` measures the elapsed time
and sleeps for the remainder before every request. -/
theorem C9_rate_limit_spacing (rl first : ℚ) (ds : List (ℚ × ℚ)) (hrl : 0 ≤ rl)
    (hd : ∀ p ∈ ds, 0 ≤ p.1 ∧ 0 ≤ p.2) :
    (requestStarts rl first ds).Chain' (fun a b => rl ≤ b - a) := by
  induction ds generalizing first with
  | nil =>
    simp [requestStarts]
  | cons p rest ih =>
    obtain ⟨δ, ε⟩ := p
    rw [requestStarts, List.chain'_cons']
    constructor
    · intro b hb
      rw [requestStarts_head, Option.mem_def, Option.some.injEq] at hb
      subst hb
      have hp := hd (δ, ε) (List.mem_cons_self _ _)
      have := nextRequestStart_ge rl first δ ε hp.1 hp.2
      linarith
    · exact ih _ (fun q hq => hd q (List.mem_cons_of_mem _ hq))

/-- Witness for C9: a concrete three-request trace with `rate_limit = 1`,
one early wakeup pressure (`δ = 0`) and one slow page (`δ = 2`). -/
theorem C9_rate_limit_spacing_witness :
    (requestStarts 1 0 [(0, 0), (2, 0)]).Chain' (fun a b => (1 : ℚ) ≤ b - a) :=
  C9_rate_limit_spacing 1 0 [(0, 0), (2, 0)] (by norm_num)
    (by intro p hp; fin_cases hp <;> norm_num)

/-- Counterexample to C4 as stated: the parse stage returns the same value
for a page with one failing item and for a page with two, so its result
carries no count of the items that failed to parse — only the
possibly-empty sequence of successes is returned (the failures are merely
logged). -/
theorem C4_no_failure_count_returned :
    parseStories now0 [goodItem, badNoAnchor]
      = parseStories now0 [goodItem, badNoAnchor, badScore] ∧
    failedItems now0 [goodItem, badNoAnchor]
      ≠ failedItems now0 [goodItem, badNoAnchor, badScore] := by
  constructor
  · decide
  · decide

/-- Claim C4 (amended): parsing never throws because of a single malformed
listing item — each per-item failure is isolated (logged and skipped) and
parsing continues, returning the possibly-empty sequence of successfully
extracted candidates; no count of failed items is part of the result. -/
theorem C4_per_item_isolation (now : DateTime) (pre post : List RawItem)
    (bad : RawItem) (hbad : parseItem now bad = none) :
    parseStories now (pre ++ bad :: post)
      = parseStories now pre ++ parseStories now post := by
  unfold parseStories
  rw [List.filterMap_append]
  rw [List.filterMap_cons_none hbad]

/-- Witness for C4 at a concrete page: the malformed middle item is dropped
and its well-formed neighbours are unaffected. -/
theorem C4_per_item_isolation_witness :
    parseItem now0 badScore = none ∧
    parseStories now0 ([goodItem] ++ badScore :: [goodItem, badNoAnchor])
      = parseStories now0 [goodItem] ++ parseStories now0 [goodItem, badNoAnchor] :=
  ⟨by decide, C4_per_item_isolation now0 [goodItem] [goodItem, badNoAnchor] badScore (by decide)⟩

/-- When every attempt fails, the retry loop ends in an error. -/
theorem makeRequestFrom_error (att : Nat → Except String (List RawItem))
    (h : ∀ a, isError (att a) = true) :
    ∀ n k, isError (makeRequestFrom att k n) = true := by
  intro n
  induction n with
  | zero => intro k; rfl
  | succ m ih =>
    intro k
    have hk := h k
    unfold makeRequestFrom
    cases hat : att k with
    | ok v => rw [hat] at hk; simp [isError] at hk
    | error e =>
      cases m with
      | zero => rfl
      | succ m2 => exact ih (k + 1)

/-- A page whose every attempt fails exhausts its retries with an error. -/
theorem fetchPage_error (env : RunEnv) (k : Nat)
    (h : ∀ a, isError (env.attempts k a) = true) :
    isError (fetchPage env k) = true :=
  makeRequestFrom_error _ h env.maxRetries 0

/-- The sequential `scrape_page` re-raises a fetch failure. -/
theorem scrapePageSeq_error (env : RunEnv) (k : Nat)
    (h : isError (fetchPage env k) = true) :
    isError (scrapePageSeq env k) = true := by
  unfold scrapePageSeq
  cases hf : fetchPage env k with
  | error e => rfl
  | ok v => rw [hf] at h; simp [isError] at h

/-- The concurrent `scrape_page` swallows a fetch failure and yields no
records. -/
theorem scrapePageAsync_of_error (env : RunEnv) (k : Nat)
    (h : isError (fetchPage env k) = true) :
    scrapePageAsync env k = [] := by
  unfold scrapePageAsync
  cases hf : fetchPage env k with
  | error e => rfl
  | ok v => rw [hf] at h; simp [isError] at h

/-- When the two variants both reach a page successfully they extract the
same records. -/
theorem scrapePageAsync_of_seq_ok {env : RunEnv} {p : Nat} {l : List Story}
    (h : scrapePageSeq env p = .ok l) : scrapePageAsync env p = l := by
  unfold scrapePageSeq at h
  unfold scrapePageAsync
  cases hf : fetchPage env p with
  | error e => rw [hf] at h; simp at h
  | ok items =>
    rw [hf] at h
    simp only [Except.ok.injEq] at h
    exact h

/-- A fatally failing page anywhere in the worklist makes the sequential
loop fail. -/
theorem seqLoop_error (env : RunEnv) {k : Nat}
    (he : isError (scrapePageSeq env k) = true) :
    ∀ ps : List Nat, k ∈ ps → isError (seqLoop env false ps) = true := by
  intro ps
  induction ps with
  | nil => intro h; simp at h
  | cons p rest ih =>
    intro hk
    unfold seqLoop
    simp only [Bool.false_eq_true, if_false]
    cases hp : scrapePageSeq env p with
    | error e => rfl
    | ok stories =>
      rcases List.mem_cons.mp hk with h1 | h2
      · subst h1
        rw [hp] at he
        simp [isError] at he
      · cases hl : seqLoop env false rest with
        | error e => rfl
        | ok r =>
          have hr := ih h2
          rw [hl] at hr
          simp [isError] at hr

/-- The concurrent loop without a stop visits every page in order and
returns the concatenation of the per-page results. -/
theorem asyncLoop_run (env : RunEnv) (ps : List Nat) :
    asyncLoop env false ps = ((ps.map (scrapePageAsync env)).flatten, ps) := by
  induction ps with
  | nil => rfl
  | cons p rest ih =>
    unfold asyncLoop
    rw [ih]
    simp

/-- Pages contributing no records drop out of the concatenation. -/
theorem join_map_filter_ne (env : RunEnv) {k : Nat}
    (hk : scrapePageAsync env k = []) (ps : List Nat) :
    ((ps.filter (fun p => p != k)).map (scrapePageAsync env)).flatten
      = (ps.map (scrapePageAsync env)).flatten := by
  induction ps with
  | nil => rfl
  | cons p rest ih =>
    by_cases hp : p = k
    · subst hp
      simp [List.filter_cons, hk, ih]
    · simp [List.filter_cons, hp, ih]

/-- Claim C1: in a run where one page's fetch fails on every attempt (its
retries exhausted) the sequential variant ends in a pipeline-level error and
returns no records at all, while the concurrent variant still visits every
page and returns exactly the concatenated records of the other pages — the
failed page contributes zero records. -/
theorem C1_page_failure_policy (env : RunEnv) (n k : Nat) (hk : k ∈ List.range' 1 n)
    (hfail : ∀ a, isError (env.attempts k a) = true) :
    isError (scrapeStoriesSeq env false n) = true ∧
    (scrapeStoriesAsync env false n).2 = List.range' 1 n ∧
    (scrapeStoriesAsync env false n).1
      = (((List.range' 1 n).filter (fun p => p != k)).map (scrapePageAsync env)).flatten := by
  have hfe := fetchPage_error env k hfail
  have hse := scrapePageSeq_error env k hfe
  have hpa := scrapePageAsync_of_error env k hfe
  refine ⟨?_, ?_, ?_⟩
  · unfold scrapeStoriesSeq
    have hl := seqLoop_error env hse (List.range' 1 n) hk
    cases hsl : seqLoop env false (List.range' 1 n) with
    | error e => rfl
    | ok r =>
      rw [hsl] at hl
      simp [isError] at hl
  · unfold scrapeStoriesAsync
    rw [asyncLoop_run]
  · unfold scrapeStoriesAsync
    rw [asyncLoop_run, join_map_filter_ne env hpa]

/-- Witness for C1: a concrete three-page run whose second page always
times out. -/
theorem C1_page_failure_policy_witness :
    isError (scrapeStoriesSeq envFail false 3) = true ∧
    (scrapeStoriesAsync envFail false 3).2 = List.range' 1 3 ∧
    (scrapeStoriesAsync envFail false 3).1
      = (((List.range' 1 3).filter (fun p => p != 2)).map (scrapePageAsync envFail)).flatten :=
  C1_page_failure_policy envFail 3 2 (by decide) (fun _ => rfl)

/-- Counterexample to C2 as stated: a concrete two-page run in which both
pipeline variants return two distinct Records carrying the same id
`"1001"` — the returned collection is not deduplicated. -/
theorem C2_duplicate_ids :
    scrapeStoriesSeq envDup false 2 = .ok ([storyA, storyB], [1, 2]) ∧
    (scrapeStoriesAsync envDup false 2).1 = [storyA, storyB] ∧
    storyA.story_id = storyB.story_id ∧ storyA ≠ storyB := by
  refine ⟨by decide, by decide, by decide, by decide⟩

/-- A successful sequential loop returns exactly the concatenated per-page
results, in page order. -/
theorem seqLoop_ok_join (env : RunEnv) :
    ∀ (ps : List Nat) (r : List Story × List Nat), seqLoop env false ps = .ok r →
      r.1 = (ps.map (scrapePageAsync env)).flatten ∧ r.2 = ps := by
  intro ps
  induction ps with
  | nil =>
    intro r h
    simp only [seqLoop, Except.ok.injEq] at h
    rw [← h]
    exact ⟨rfl, rfl⟩
  | cons p rest ih =>
    intro r h
    unfold seqLoop at h
    simp only [Bool.false_eq_true, if_false] at h
    cases hp : scrapePageSeq env p with
    | error e => rw [hp] at h; simp at h
    | ok stories =>
      rw [hp] at h
      cases hl : seqLoop env false rest with
      | error e => rw [hl] at h; simp at h
      | ok r2 =>
        obtain ⟨rest2, pages⟩ := r2
        rw [hl] at h
        simp only [Except.ok.injEq] at h
        obtain ⟨hr, hp2⟩ := ih (rest2, pages) hl
        dsimp only at hr hp2
        rw [← h]
        refine ⟨?_, ?_⟩
        · dsimp only
          rw [List.map_cons, List.flatten_cons, scrapePageAsync_of_seq_ok hp, hr]
        · dsimp only
          rw [hp2]

/-- Claim C2 (amended): neither pipeline deduplicates — the returned
collection is exactly the concatenation of the per-page records in page
order (so records with duplicate ids may appear, as `C2_duplicate_ids`
shows on a concrete run). -/
theorem C2_concat_no_dedup (env : RunEnv) (n : Nat) :
    (scrapeStoriesAsync env false n).1
      = ((List.range' 1 n).map (scrapePageAsync env)).flatten ∧
    (∀ r, scrapeStoriesSeq env false n = .ok r →
      r.1 = ((List.range' 1 n).map (scrapePageAsync env)).flatten ∧
      r.2 = List.range' 1 n) := by
  constructor
  · unfold scrapeStoriesAsync
    rw [asyncLoop_run]
  · intro r h
    unfold scrapeStoriesSeq at h
    cases hl : seqLoop env false (List.range' 1 n) with
    | error e => rw [hl] at h; simp at h
    | ok r2 =>
      rw [hl] at h
      simp only [Except.ok.injEq] at h
      rw [← h]
      exact seqLoop_ok_join env _ r2 hl

/-- Witness for C2 (amended) at the duplicate-id run. -/
theorem C2_concat_no_dedup_witness :
    (scrapeStoriesAsync envDup false 2).1
      = ((List.range' 1 2).map (scrapePageAsync envDup)).flatten ∧
    ([storyA, storyB] = ((List.range' 1 2).map (scrapePageAsync envDup)).flatten ∧
      [1, 2] = List.range' 1 2) :=
  ⟨(C2_concat_no_dedup envDup 2).1,
    (C2_concat_no_dedup envDup 2).2 ([storyA, storyB], [1, 2]) (by decide)⟩

/-- Re-validating the fields of an already validated record is the
identity: every check passes, every defaulting rule is a no-op. -/
theorem mkStory_fixed {s : Story} (hv : StoryValid s = true) :
    mkStory { title := s.title, url := s.url, points := s.points,
              username := s.username, comment_count := s.comment_count,
              story_id := s.story_id, time := s.time } = .ok s := by
  obtain ⟨title, url, points, username, cc, sid, time⟩ := s
  unfold StoryValid at hv
  simp only [Bool.and_eq_true, Bool.not_eq_true', decide_eq_true_eq] at hv
  obtain ⟨⟨⟨⟨⟨h1, h2⟩, h3⟩, h4⟩, h5⟩, h6⟩ := hv
  have hu : ¬(pyFalsy url = true) := by simp [h2]
  have hp : ¬(points < 0) := by omega
  have hn : ¬(pyEmpty username = true) := by simp [h4]
  have hcc : ¬(cc < 0) := by omega
  rw [mkStory_ok _ h1 h6, if_neg hu, if_neg hp, if_neg hn, if_neg hcc]

/-- One record survives the dict round trip: `from_dict (to_dict s) = s`. -/
theorem from_dict_to_dict {s : Story} (hv : StoryValid s = true)
    (hc : timeCodecOk s = true) :
    Story.from_dict (Story.to_dict s) = .ok s := by
  have hfix := mkStory_fixed hv
  unfold timeCodecOk at hc
  obtain ⟨title, url, points, username, cc, sid, time⟩ := s
  cases time with
  | none => exact hfix
  | some dt =>
    dsimp only at hc
    simp only [beq_iff_eq] at hc
    dsimp only [Story.from_dict, Story.to_dict, Option.map_some']
    rw [hc]
    exact hfix

/-- A list of valid records survives save-then-load. -/
theorem load_save_aux : ∀ l : List Story, (∀ s ∈ l, StoryValid s = true) →
    (∀ s ∈ l, timeCodecOk s = true) →
    load_stories (save_stories l) = .ok l := by
  intro l
  induction l with
  | nil => intro _ _; rfl
  | cons s rest ih =>
    intro hv hc
    unfold save_stories load_stories
    rw [List.map_cons, List.mapM_cons]
    rw [from_dict_to_dict (hv s (List.mem_cons_self s rest)) (hc s (List.mem_cons_self s rest))]
    have hr := ih (fun x hx => hv x (List.mem_cons_of_mem s hx))
      (fun x hx => hc x (List.mem_cons_of_mem s hx))
    unfold save_stories load_stories at hr
    rw [hr]
    rfl

/-- Claim C8: saving any sequence of (constructed, codec-clean) records with
the Store and loading it back yields the same records in every field; the
derived domain is recomputed on the loaded record — `from_dict` never reads
the stored `domain` value. -/
theorem C8_save_load_round_trip (stories : List Story)
    (hv : ∀ s ∈ stories, StoryValid s = true)
    (hc : ∀ s ∈ stories, timeCodecOk s = true) :
    load_stories (save_stories stories) = .ok stories ∧
    (∀ (d : StoryDict) (x : Option String),
      Story.from_dict { d with domain := x } = Story.from_dict d) :=
  ⟨load_save_aux stories hv hc, fun _ _ => rfl⟩

/-- Witness for C8: a concrete store of three records (duplicate-free urls,
a missing timestamp, a microsecond timestamp). -/
theorem C8_save_load_round_trip_witness :
    load_stories (save_stories [storyA, storyNoTime, storyMicro])
      = .ok [storyA, storyNoTime, storyMicro] ∧
    (∀ (d : StoryDict) (x : Option String),
      Story.from_dict { d with domain := x } = Story.from_dict d) :=
  C8_save_load_round_trip [storyA, storyNoTime, storyMicro] (by decide) (by decide)

end HN
